import Mathlib

/-
Shallow embedding of the payment lifecycle and reconciliation subsystem of
the SmartRent backend (src/routes/payments.js, both route variants, and the
PaymentService in src/services/payment.service.js).

Modelling conventions:
- Firestore's `payments` collection is a `List PaymentDoc`; per-document
  atomic update is a `List.map` over matching ids.
- JS `undefined`/nullable fields are `Option`s; JS falsiness of strings is
  `isBlank`; money amounts are `Rat` (JS numbers, float rounding ignored);
  timestamps (`new Date()`) are `Nat` instants passed in as `now`.
- The Stripe gateway is an oracle: `retrieve : String → Option StripeIntent`
  (`none` = a thrown retrieval error, surfaced as HTTP 500) and
  `createIntent : Int → Option NewIntent` (`none` = intent creation failure,
  surfaced as HTTP 500). Library calls that throw on malformed arguments
  (firebase-admin's rejection of an `undefined` query value) are modelled
  as explicit error results, surfaced as HTTP 500 by the routes'
  try/catch.
- Webhook signature verification (`stripe.webhooks.constructEvent`) is
  modelled by a boolean `sigValid` input: the cryptographic check itself
  lives in the Stripe library, outside this repository.
- Each route handler is a pure function from request data, store state and
  oracles to `Resp × Store` (HTTP status plus the observable response
  fields the properties mention, and the post-state of the store).
-/

namespace SmartRent

/-- Payment status values stored in the `status` field
(`pending`, `paid`, `failed`, `cancelled`). -/
inductive PayStatus
  | pending
  | paid
  | failed
  | cancelled
deriving DecidableEq, Repr

/-- A document of the Firestore `payments` collection. The two create routes
store different shapes (the lease-keyed route stores `amount`, the
landlord route stores `totalAmount` and its components), so the
variant-specific money fields are `Option`s defaulting to `none`
(JS: field absent / `undefined`). -/
structure PaymentDoc where
  id : String
  tenantId : String
  landlordId : String
  propertyId : String
  leaseId : Option String := none
  period : String
  status : PayStatus := .pending
  totalAmount : Option Rat := none
  amount : Option Rat := none
  rentAmount : Option Rat := none
  utilitiesAmount : Option Rat := none
  depositAmount : Option Rat := none
  currency : String := "USD"
  description : Option String := none
  isFirstPayment : Option Bool := none
  payType : Option String := none
  stripePaymentIntentId : Option String := none
  stripeChargeId : Option String := none
  createdAt : Nat := 0
  paidAt : Option Nat := none
deriving DecidableEq, Repr

/-- The `payments` collection. -/
abbrev Store := List PaymentDoc

/-- `PaymentService.getById`: fetch a payment document by id
(`null` when absent). -/
def getById (store : Store) (paymentId : String) : Option PaymentDoc :=
  store.find? (fun d => d.id == paymentId)

/-- `PaymentService.create`: persists `{...paymentData, status: 'pending',
stripePaymentIntentId: null, stripeChargeId: null, createdAt: new Date(),
paidAt: null}` and returns the stored record. `base` carries the
caller-supplied `paymentData` fields (with the fresh document id). -/
def serviceCreate (store : Store) (base : PaymentDoc) (now : Nat) :
    PaymentDoc × Store :=
  let payment : PaymentDoc :=
    { base with
      status := .pending
      stripePaymentIntentId := none
      stripeChargeId := none
      createdAt := now
      paidAt := none }
  (payment, store ++ [payment])

/-- The per-document effect of `PaymentService.updateStatus(paymentId,
status, extraData)`: `updateData = {status, ...extraData}` and, when the
new status is `'paid'`, `updateData.paidAt = new Date()`. The only
`extraData` the routes ever pass is `{stripeChargeId}` (whose value may be
`null`), modelled as `chargeExtra : Option (Option String)` —
`none` means the key is absent. -/
def statusTransform (paymentId : String) (st : PayStatus)
    (chargeExtra : Option (Option String)) (now : Nat)
    (d : PaymentDoc) : PaymentDoc :=
  if d.id = paymentId then
    let d1 := { d with status := st }
    let d2 := match chargeExtra with
      | some c => { d1 with stripeChargeId := c }
      | none => d1
    if st = PayStatus.paid then { d2 with paidAt := some now } else d2
  else d

/-- `PaymentService.updateStatus`: per-document atomic field update on the
matching document. -/
def updateStatus (store : Store) (paymentId : String) (st : PayStatus)
    (chargeExtra : Option (Option String)) (now : Nat) : Store :=
  store.map (statusTransform paymentId st chargeExtra now)

/-- `PaymentService.updateStripeIntentId`: sets `stripePaymentIntentId` on
the matching document. -/
def updateStripeIntentId (store : Store) (paymentId intentId : String) :
    Store :=
  store.map (fun d =>
    if d.id = paymentId then { d with stripePaymentIntentId := some intentId }
    else d)

/-- `PaymentService.existsForPeriod(tenantId, propertyId, period)`:
Firestore query `tenantId == ∧ propertyId == ∧ period == ∧ status in
['pending','paid']`, non-empty check. The `period` parameter is an
`Option` because the lease-keyed create route invokes the method with
only two arguments, leaving this parameter `undefined` (`none`);
firebase-admin rejects `undefined` as a query value (`Cannot use
"undefined" as a Firestore value` — no `ignoreUndefinedProperties` is
configured), so such a call throws, modelled as `Except.error`. -/
def existsForPeriod (store : Store) (tenantId propertyId : String)
    (period : Option String) : Except Unit Bool :=
  match period with
  | none => .error ()
  | some p =>
    .ok (store.any (fun d =>
      d.tenantId == tenantId && d.propertyId == propertyId &&
        d.period == p &&
        (d.status == PayStatus.pending || d.status == PayStatus.paid)))

/-- `hasExistingPayments(tenantId, propertyId)` (totalAmount-variant
routes file): Firestore query `tenantId == ∧ propertyId == ∧ status in
['paid','pending']`, non-empty check. -/
def hasExistingPayments (store : Store) (tenantId propertyId : String) :
    Bool :=
  store.any (fun d =>
    d.tenantId == tenantId && d.propertyId == propertyId &&
      (d.status == PayStatus.paid || d.status == PayStatus.pending))

/-- A Stripe payment intent as seen through `stripe.paymentIntents.retrieve`:
its id, processor-side status string, client secret and the ids of
`charges.data`. -/
structure StripeIntent where
  id : String
  status : String
  clientSecret : String
  chargeIds : List String := []
deriving DecidableEq, Repr

/-- The result of a successful `stripe.paymentIntents.create` call. -/
structure NewIntent where
  id : String
  clientSecret : String
deriving DecidableEq, Repr

/-- The observable HTTP response of a payment route: numeric status code
plus the response-body fields the specified properties mention.
`intentAmount` records the amount (in cents) passed to
`stripe.paymentIntents.create` when the handler creates an intent. -/
structure Resp where
  status : Nat
  synced : Option Bool := none
  clientSecret : Option String := none
  paymentIntentId : Option String := none
  intentAmount : Option Int := none
  paymentId : Option String := none
deriving DecidableEq, Repr

/-- A verified Stripe webhook event: its `type`, the `metadata.paymentId`
of the embedded intent object, and the ids of that object's
`charges.data`. -/
structure WebhookEvent where
  etype : String
  paymentId : String
  chargeIds : List String := []
deriving DecidableEq, Repr

/-- `POST /payments/webhook` (identical in both route variants). Signature
verification failure returns 400 before any store access. On
`payment_intent.succeeded` the handler calls
`updateStatus(paymentId, 'paid', {stripeChargeId})` unconditionally, with
`stripeChargeId = charges.data[0].id` when present else `null`; on
`payment_intent.payment_failed` it calls
`updateStatus(paymentId, 'failed')` unconditionally; unknown event types
are acknowledged with 200 and ignored. -/
def webhookRoute (sigValid : Bool) (ev : WebhookEvent) (store : Store)
    (now : Nat) : Resp × Store :=
  if !sigValid then ({ status := 400 }, store)
  else if ev.etype == "payment_intent.succeeded" then
    ({ status := 200 },
      updateStatus store ev.paymentId .paid (some ev.chargeIds.head?) now)
  else if ev.etype == "payment_intent.payment_failed" then
    ({ status := 200 }, updateStatus store ev.paymentId .failed none now)
  else ({ status := 200 }, store)

/-- `POST /payments/sync/:paymentId` (identical in both route variants):
fetch, authorize (tenant or landlord), require a stored intent id,
retrieve the intent, then reconcile: `succeeded ∧ status ≠ 'paid'` →
`updateStatus paid` with `charges.data[0].id` (or `null`);
`canceled ∧ status = 'pending'` → `updateStatus failed`; otherwise
`synced:false` with no write. -/
def syncRoute (paymentId userId : String) (store : Store)
    (retrieve : String → Option StripeIntent) (now : Nat) : Resp × Store :=
  match getById store paymentId with
  | none => ({ status := 404 }, store)
  | some p =>
    if p.tenantId ≠ userId ∧ p.landlordId ≠ userId then
      ({ status := 403 }, store)
    else
      match p.stripePaymentIntentId with
      | none => ({ status := 400 }, store)
      | some intentId =>
        match retrieve intentId with
        | none => ({ status := 500 }, store)
        | some intent =>
          if intent.status = "succeeded" ∧ p.status ≠ PayStatus.paid then
            ({ status := 200, synced := some true },
              updateStatus store paymentId .paid
                (some intent.chargeIds.head?) now)
          else if intent.status = "canceled" ∧ p.status = PayStatus.pending then
            ({ status := 200, synced := some true },
              updateStatus store paymentId .failed none now)
          else ({ status := 200, synced := some false }, store)

/-- JS `Math.round` (round half towards positive infinity). -/
def jsRound (q : Rat) : Int := ⌊q + 1 / 2⌋

/-- `POST /payments/pay/:paymentId` (totalAmount variant): fetch, authorize
(`payment.tenantId !== tenantId` → 403: only the tenant), reject `paid`
and `cancelled` with 400, reuse a non-terminal existing intent, otherwise
create a new intent for `Math.round(totalAmount * 100)` cents and persist
its id. A record with no `totalAmount` yields a `NaN` amount, which the
Stripe create call rejects (surfaced as 500). -/
def payRoute (paymentId tenantId : String) (store : Store)
    (retrieve : String → Option StripeIntent)
    (createIntent : Int → Option NewIntent) : Resp × Store :=
  match getById store paymentId with
  | none => ({ status := 404 }, store)
  | some p =>
    if p.tenantId ≠ tenantId then ({ status := 403 }, store)
    else if p.status = PayStatus.paid then ({ status := 400 }, store)
    else if p.status = PayStatus.cancelled then ({ status := 400 }, store)
    else
      let freshIntent : Resp × Store :=
        match p.totalAmount with
        | none => ({ status := 500 }, store)
        | some amt =>
          let cents := jsRound (amt * 100)
          match createIntent cents with
          | none => ({ status := 500 }, store)
          | some ni =>
            ({ status := 200, clientSecret := some ni.clientSecret,
               paymentIntentId := some ni.id, intentAmount := some cents },
              updateStripeIntentId store paymentId ni.id)
      match p.stripePaymentIntentId with
      | some intentId =>
        match retrieve intentId with
        | none => ({ status := 500 }, store)
        | some intent =>
          if intent.status = "succeeded" then ({ status := 400 }, store)
          else if intent.status ≠ "canceled" then
            ({ status := 200, clientSecret := some intent.clientSecret,
               paymentIntentId := some intent.id }, store)
          else freshIntent
      | none => freshIntent

/-- `DELETE /payments/:paymentId` (landlord cancellation): fetch, authorize
(`payment.landlordId !== landlordId` → 403), reject `paid` with 400
("Cannot cancel a paid payment"), otherwise `updateStatus(id,
'cancelled')`. -/
def deleteRoute (paymentId landlordId : String) (store : Store) (now : Nat) :
    Resp × Store :=
  match getById store paymentId with
  | none => ({ status := 404 }, store)
  | some p =>
    if p.landlordId ≠ landlordId then ({ status := 403 }, store)
    else if p.status = PayStatus.paid then ({ status := 400 }, store)
    else ({ status := 200 }, updateStatus store paymentId .cancelled none now)

/-- JS falsiness of an optional string request field (`!x`):
absent or empty. -/
def isBlank : Option String → Bool
  | none => true
  | some s => s == ""

/-- The `period` format check `/^\d{4}-\d{2}$/`. -/
def periodValid (s : String) : Bool :=
  match s.data with
  | [a, b, c, d, e, f, g] =>
    a.isDigit && b.isDigit && c.isDigit && d.isDigit &&
      e == '-' && f.isDigit && g.isDigit
  | _ => false

/-- The request body of `POST /payments/create` (totalAmount variant),
after `parseFloat(x) || 0` has been applied to the amount fields. -/
structure CreateReq where
  tenantId : Option String := none
  propertyId : Option String := none
  period : Option String := none
  rentAmount : Rat := 0
  utilitiesAmount : Rat := 0
  depositAmount : Rat := 0
  description : Option String := none
deriving DecidableEq, Repr

/-- The duplicate-payment guard of the totalAmount-variant create route:
Firestore query `landlordId == ∧ tenantId == ∧ propertyId == ∧ period ==
∧ status in ['pending','paid']`, non-empty check. -/
def duplicateExists (store : Store) (landlordId tenantId propertyId
    period : String) : Bool :=
  store.any (fun d =>
    d.landlordId == landlordId && d.tenantId == tenantId &&
      d.propertyId == propertyId && d.period == period &&
      (d.status == PayStatus.pending || d.status == PayStatus.paid))

/-- The `paymentData` the totalAmount-variant create route passes to
`PaymentService.create` (before the service adds the lifecycle fields). -/
def createBase (req : CreateReq) (landlordId newId : String)
    (hasPayments : Bool) : PaymentDoc :=
  let period := req.period.getD ""
  { id := newId
    tenantId := req.tenantId.getD ""
    landlordId := landlordId
    propertyId := req.propertyId.getD ""
    period := period
    totalAmount := some (req.rentAmount + req.utilitiesAmount +
      req.depositAmount)
    rentAmount := some req.rentAmount
    utilitiesAmount := some req.utilitiesAmount
    depositAmount := some req.depositAmount
    currency := "USD"
    description := some (match req.description with
      | some s => if s == "" then "Payment for " ++ period else s
      | none => "Payment for " ++ period)
    isFirstPayment := some (!hasPayments) }

/-- `POST /payments/create` (totalAmount variant, landlord-initiated):
required-field check, at-least-one-positive-amount check, period format
check, first-payment deposit rule (note: HTTP 400 in the code), total
positivity, duplicate guard (409), then `PaymentService.create`. -/
def createRoute (req : CreateReq) (landlordId : String) (store : Store)
    (newId : String) (now : Nat) : Resp × Store :=
  if isBlank req.tenantId || isBlank req.propertyId || isBlank req.period then
    ({ status := 400 }, store)
  else
    let tenantId := req.tenantId.getD ""
    let propertyId := req.propertyId.getD ""
    let period := req.period.getD ""
    if req.rentAmount ≤ 0 ∧ req.utilitiesAmount ≤ 0 ∧ req.depositAmount ≤ 0
    then ({ status := 400 }, store)
    else if ¬ periodValid period then ({ status := 400 }, store)
    else
      let hasPayments := hasExistingPayments store tenantId propertyId
      if hasPayments ∧ req.depositAmount > 0 then ({ status := 400 }, store)
      else
        let totalAmount := req.rentAmount + req.utilitiesAmount +
          req.depositAmount
        if totalAmount ≤ 0 then ({ status := 400 }, store)
        else if duplicateExists store landlordId tenantId propertyId period
        then ({ status := 409 }, store)
        else
          let created := serviceCreate store
            (createBase req landlordId newId hasPayments) now
          ({ status := 200, paymentId := some created.1.id }, created.2)

/-- A document of the `leases` collection, as read by the lease-keyed
create route. -/
structure Lease where
  id : String
  tenantId : String
  landlordId : String
  propertyId : String
  status : String
  monthlyRent : Rat
  securityDeposit : Option Rat := none
deriving DecidableEq, Repr

/-- The `paymentData` the lease-keyed create route passes to
`PaymentService.create`: note it stores `amount`, not `totalAmount`. -/
def leaseCreateBase (leaseId tenantId : String) (lease : Lease)
    (amt : Rat) (payType period newId : String) : PaymentDoc :=
  { id := newId
    leaseId := some leaseId
    tenantId := tenantId
    landlordId := lease.landlordId
    propertyId := lease.propertyId
    amount := some amt
    currency := "USD"
    payType := some payType
    period := period }

/-- `POST /payments/create` (lease-keyed variant, tenant-initiated):
required fields, period format, lease lookup, authorization, active-lease
check, then the duplicate guard — which calls
`existsForPeriod(leaseId, period)` with only two arguments, so the
service receives `tenantId := leaseId`, `propertyId := period`,
`period := undefined` and the SDK throws on the undefined query value;
the route's try/catch turns the throw into HTTP 500 before
`PaymentService.create` ever runs. The remainder of the handler (amount
selection by `type`, record creation, the late `amountInCents <= 0`
check, intent creation and `updateStripeIntentId`) is embedded from the
source even though the throwing guard makes it unreachable through this
route. -/
def createLeaseRoute (leaseId period : Option String) (payType : String)
    (tenantId : String) (leases : List Lease) (store : Store)
    (createIntent : Int → Option NewIntent) (newId : String) (now : Nat) :
    Resp × Store :=
  if isBlank leaseId || isBlank period then ({ status := 400 }, store)
  else
    let lid := leaseId.getD ""
    let per := period.getD ""
    if ¬ periodValid per then ({ status := 400 }, store)
    else
      match leases.find? (fun l => l.id == lid) with
      | none => ({ status := 404 }, store)
      | some lease =>
        if lease.tenantId ≠ tenantId then ({ status := 403 }, store)
        else if lease.status ≠ "active" then ({ status := 400 }, store)
        else
          match existsForPeriod store lid per none with
          | .error _ => ({ status := 500 }, store)
          | .ok true => ({ status := 409 }, store)
          | .ok false =>
            let amountOpt : Option Rat :=
              if payType = "rent" then some lease.monthlyRent
              else if payType = "deposit" then
                some (match lease.securityDeposit with
                  | some d => if d = 0 then lease.monthlyRent else d
                  | none => lease.monthlyRent)
              else none
            match amountOpt with
            | none => ({ status := 400 }, store)
            | some amt =>
              let created := serviceCreate store
                (leaseCreateBase lid tenantId lease amt payType per newId)
                now
              let cents := jsRound (amt * 100)
              if cents ≤ 0 then ({ status := 400 }, created.2)
              else
                match createIntent cents with
                | none => ({ status := 500 }, created.2)
                | some ni =>
                  ({ status := 200, paymentId := some created.1.id,
                     clientSecret := some ni.clientSecret,
                     intentAmount := some cents },
                    updateStripeIntentId created.2 created.1.id ni.id)

/-- A JS number that may be `NaN` (the result of arithmetic with
`undefined`). -/
inductive JSNum
  | num (q : Rat)
  | nan
deriving DecidableEq, Repr

/-- `sum + p.totalAmount` in JS: adding an absent field (`undefined`)
yields `NaN`, and `NaN` is absorbing. -/
def JSNum.addOpt : JSNum → Option Rat → JSNum
  | _, none => .nan
  | .nan, some _ => .nan
  | .num a, some b => .num (a + b)

/-- The statistics object of `PaymentService.getLandlordStats` (the
`thisMonthRevenue` field, which depends on calendar-month extraction from
wall-clock dates, is outside the claims and omitted). -/
structure LandlordStats where
  total : Nat
  pending : Nat
  paid : Nat
  failed : Nat
  totalRevenue : JSNum
  pendingAmount : JSNum
deriving DecidableEq, Repr

/-- `PaymentService.getLandlordStats(landlordId)`: counts by status, and
`reduce((sum, p) => sum + p.totalAmount, 0)` over the `paid` (resp.
`pending`) payments of the landlord. -/
def getLandlordStats (store : Store) (landlordId : String) : LandlordStats :=
  let payments := store.filter (fun d => d.landlordId == landlordId)
  { total := payments.length
    pending := (payments.filter (fun p => p.status == PayStatus.pending)).length
    paid := (payments.filter (fun p => p.status == PayStatus.paid)).length
    failed := (payments.filter (fun p => p.status == PayStatus.failed)).length
    totalRevenue := (payments.filter
        (fun p => p.status == PayStatus.paid)).foldl
      (fun s p => s.addOpt p.totalAmount) (JSNum.num 0)
    pendingAmount := (payments.filter
        (fun p => p.status == PayStatus.pending)).foldl
      (fun s p => s.addOpt p.totalAmount) (JSNum.num 0) }

/-! ### Concrete fixtures used by the scenario and counterexample
theorems -/

/-- A payment that has already settled (`paid`). -/
def paidFixture : PaymentDoc :=
  { id := "p1", tenantId := "T", landlordId := "L", propertyId := "P",
    period := "2025-03", status := .paid, totalAmount := some 1000,
    stripePaymentIntentId := some "pi_1", stripeChargeId := some "ch_1",
    createdAt := 0, paidAt := some 5 }

/-- A `pending` payment whose Stripe intent has been created. -/
def pendingFixture : PaymentDoc :=
  { id := "p1", tenantId := "T", landlordId := "L", propertyId := "P",
    period := "2025-03", status := .pending, totalAmount := some 1000,
    stripePaymentIntentId := some "pi_1", createdAt := 0 }

/-- A `pending` payment with no Stripe intent yet. -/
def pendingNoIntentFixture : PaymentDoc :=
  { id := "p1", tenantId := "T", landlordId := "L", propertyId := "P",
    period := "2025-03", status := .pending, totalAmount := some 1000 }

/-- A `failed` (hence non-cancelled) payment for tenant `T`, property `P`,
period `2025-03`, created by landlord `L`. -/
def failedFixture : PaymentDoc :=
  { id := "p0", tenantId := "T", landlordId := "L", propertyId := "P",
    period := "2025-03", status := .failed, totalAmount := some 1000 }

/-- A prior `pending` payment of tenant `T` on property `P` (period
`2025-02`). -/
def priorPendingFixture : PaymentDoc :=
  { id := "p0", tenantId := "T", landlordId := "L", propertyId := "P",
    period := "2025-02", status := .pending, totalAmount := some 1000 }

/-- A Stripe oracle knowing exactly the succeeded intent `pi_1` with one
charge `ch_1`. -/
def succeededRetrieve : String → Option StripeIntent := fun intentId =>
  if intentId == "pi_1" then
    some { id := "pi_1", status := "succeeded", clientSecret := "cs_1",
           chargeIds := ["ch_1"] }
  else none

/-- The verified `payment_intent.succeeded` webhook event for payment
`p1`. -/
def succeededEvent : WebhookEvent :=
  { etype := "payment_intent.succeeded", paymentId := "p1",
    chargeIds := ["ch_1"] }

/-- A create request: tenant `T`, property `P`, period `2025-03`, rent
100. -/
def rentReq : CreateReq :=
  { tenantId := some "T", propertyId := some "P", period := some "2025-03",
    rentAmount := 100 }

/-- A create request asking only for a deposit of 5. -/
def depositReq : CreateReq :=
  { tenantId := some "T", propertyId := some "P", period := some "2025-03",
    depositAmount := 5 }

/-- The scenario create request of the spec: rent 1000 for period
`2025-03`. -/
def scnReq : CreateReq :=
  { tenantId := some "T", propertyId := some "P", period := some "2025-03",
    rentAmount := 1000 }

/-- Scenario step 1: the landlord creates the payment request into an
empty store at instant 0. -/
def scnStep1 : Resp × Store := createRoute scnReq "L" [] "pay1" 0

/-- Scenario gateway: intent creation yields `pi_1` with client secret
`cs_1`. -/
def scnCreateIntent : Int → Option NewIntent :=
  fun _ => some { id := "pi_1", clientSecret := "cs_1" }

/-- Scenario step 2: the tenant initiates the charge. -/
def scnStep2 : Resp × Store :=
  payRoute "pay1" "T" scnStep1.2 succeededRetrieve scnCreateIntent

/-- Scenario step 3: the verified `payment_intent.succeeded` webhook for
payment `pay1` arrives at instant 7. -/
def scnStep3 : Resp × Store :=
  webhookRoute true
    { etype := "payment_intent.succeeded", paymentId := "pay1",
      chargeIds := ["ch_1"] } scnStep2.2 7

/-- Scenario step 4: the tenant calls manual sync at instant 9. -/
def scnStep4 : Resp × Store :=
  syncRoute "pay1" "T" scnStep3.2 succeededRetrieve 9

/-- An active lease with monthly rent 50. -/
def activeLease : Lease :=
  { id := "lease1", tenantId := "T", landlordId := "L", propertyId := "P",
    status := "active", monthlyRent := 50 }

/-- A payment shaped like the lease-keyed create route's records (it
stores `amount`, never `totalAmount`), already reconciled to `paid`. -/
def leaseStyleDoc : PaymentDoc :=
  { id := "q1", tenantId := "T", landlordId := "L", propertyId := "P",
    leaseId := some "lease1", period := "2025-03", status := .paid,
    amount := some 50, payType := some "rent" }

/-! ### General lemmas about the store operations -/

/-- `statusTransform` never changes a document's id. -/
theorem statusTransform_id (paymentId : String) (st : PayStatus)
    (extra : Option (Option String)) (now : Nat) (d : PaymentDoc) :
    (statusTransform paymentId st extra now d).id = d.id := by
  by_cases h : d.id = paymentId <;> cases extra <;>
    by_cases hst : st = PayStatus.paid <;>
      simp [statusTransform, h, hst]

/-- `statusTransform` never changes a document's tenant. -/
theorem statusTransform_tenantId (paymentId : String) (st : PayStatus)
    (extra : Option (Option String)) (now : Nat) (d : PaymentDoc) :
    (statusTransform paymentId st extra now d).tenantId = d.tenantId := by
  by_cases h : d.id = paymentId <;> cases extra <;>
    by_cases hst : st = PayStatus.paid <;>
      simp [statusTransform, h, hst]

/-- `statusTransform` never changes a document's landlord. -/
theorem statusTransform_landlordId (paymentId : String) (st : PayStatus)
    (extra : Option (Option String)) (now : Nat) (d : PaymentDoc) :
    (statusTransform paymentId st extra now d).landlordId = d.landlordId := by
  by_cases h : d.id = paymentId <;> cases extra <;>
    by_cases hst : st = PayStatus.paid <;>
      simp [statusTransform, h, hst]

/-- `statusTransform` never changes a document's stored intent id. -/
theorem statusTransform_intentId (paymentId : String) (st : PayStatus)
    (extra : Option (Option String)) (now : Nat) (d : PaymentDoc) :
    (statusTransform paymentId st extra now d).stripePaymentIntentId
      = d.stripePaymentIntentId := by
  by_cases h : d.id = paymentId <;> cases extra <;>
    by_cases hst : st = PayStatus.paid <;>
      simp [statusTransform, h, hst]

/-- On the matching document, `statusTransform` installs the new status. -/
theorem statusTransform_status (paymentId : String) (st : PayStatus)
    (extra : Option (Option String)) (now : Nat) (d : PaymentDoc)
    (h : d.id = paymentId) :
    (statusTransform paymentId st extra now d).status = st := by
  cases extra <;>
    by_cases hst : st = PayStatus.paid <;>
      simp [statusTransform, h, hst]

/-- On the matching document, a transition into `paid` stamps `paidAt`
with the current instant. -/
theorem statusTransform_paidAt (paymentId : String)
    (extra : Option (Option String)) (now : Nat) (d : PaymentDoc)
    (h : d.id = paymentId) :
    (statusTransform paymentId .paid extra now d).paidAt = some now := by
  cases extra <;> simp [statusTransform, h]

/-- On the matching document, a transition that does not target `paid`
leaves `paidAt` unchanged. -/
theorem statusTransform_paidAt_of_ne (paymentId : String) (st : PayStatus)
    (extra : Option (Option String)) (now : Nat) (d : PaymentDoc)
    (h : d.id = paymentId) (hst : st ≠ PayStatus.paid) :
    (statusTransform paymentId st extra now d).paidAt = d.paidAt := by
  cases extra <;> simp [statusTransform, h, hst]

/-- On the matching document, passing `{stripeChargeId}` in `extraData`
installs the given (possibly null) charge id. -/
theorem statusTransform_chargeId (paymentId : String) (st : PayStatus)
    (c : Option String) (now : Nat) (d : PaymentDoc) (h : d.id = paymentId) :
    (statusTransform paymentId st (some c) now d).stripeChargeId = c := by
  by_cases hst : st = PayStatus.paid <;> simp [statusTransform, h, hst]

/-- `getById` commutes with a map that preserves ids. -/
theorem getById_map (f : PaymentDoc → PaymentDoc)
    (hf : ∀ d, (f d).id = d.id) (l : Store) (paymentId : String) :
    getById (l.map f) paymentId = (getById l paymentId).map f := by
  induction l with
  | nil => rfl
  | cons d rest ih =>
    simp only [getById, List.map_cons, List.find?] at *
    rw [hf d]
    cases hd : (d.id == paymentId) with
    | true => rfl
    | false => exact ih

/-- Reading back the updated document after `updateStatus`. -/
theorem getById_updateStatus (store : Store) (paymentId : String)
    (st : PayStatus) (extra : Option (Option String)) (now : Nat) :
    getById (updateStatus store paymentId st extra now) paymentId
      = (getById store paymentId).map (statusTransform paymentId st extra now) :=
  getById_map _ (statusTransform_id paymentId st extra now) store paymentId

/-- A document returned by `getById` carries the requested id. -/
theorem getById_id (store : Store) (paymentId : String) (p : PaymentDoc)
    (h : getById store paymentId = some p) : p.id = paymentId := by
  have h' : store.find? (fun d => d.id == paymentId) = some p := h
  have hfind := List.find?_some h'
  simpa using hfind

/-! ### Route-level helper lemmas -/

/-- Sync leaves the store untouched whenever the stored status is already
`paid`: both reconciliation branches are guarded away. -/
theorem syncRoute_store_of_paid (store : Store) (paymentId uid : String)
    (p : PaymentDoc) (retrieve : String → Option StripeIntent) (now : Nat)
    (hp : getById store paymentId = some p)
    (hpaid : p.status = PayStatus.paid) :
    (syncRoute paymentId uid store retrieve now).2 = store := by
  unfold syncRoute
  rw [hp]
  dsimp only
  split
  · rfl
  · cases hI : p.stripePaymentIntentId with
    | none => rfl
    | some intentId =>
      dsimp only
      cases hR : retrieve intentId with
      | none => rfl
      | some intent =>
        dsimp only
        rw [hpaid]
        simp

/-- When the payment is already `paid` and the stored intent resolves,
sync responds 200 with `synced:false` and performs no write. -/
theorem syncRoute_synced_false_of_paid (store : Store)
    (paymentId uid : String) (p : PaymentDoc) (intentId : String)
    (intent : StripeIntent) (retrieve : String → Option StripeIntent)
    (now : Nat) (hp : getById store paymentId = some p)
    (hauth : ¬(p.tenantId ≠ uid ∧ p.landlordId ≠ uid))
    (hiid : p.stripePaymentIntentId = some intentId)
    (hret : retrieve intentId = some intent)
    (hpaid : p.status = PayStatus.paid) :
    syncRoute paymentId uid store retrieve now
      = ({ status := 200, synced := some false }, store) := by
  unfold syncRoute
  rw [hp]
  dsimp only
  rw [if_neg hauth, hiid]
  dsimp only
  rw [hret]
  dsimp only
  rw [hpaid]
  simp

/-- The "succeeded" reconciliation step of the sync route: with the caller
authorized, a stored intent id, a retrievable intent whose processor
status is `succeeded`, and a local status other than `paid`, sync marks
the payment `paid` via `updateStatus` and reports `synced:true`. -/
theorem syncRoute_succeeded (store : Store) (paymentId uid : String)
    (p : PaymentDoc) (intentId : String) (intent : StripeIntent)
    (retrieve : String → Option StripeIntent) (now : Nat)
    (hp : getById store paymentId = some p)
    (hauth : ¬(p.tenantId ≠ uid ∧ p.landlordId ≠ uid))
    (hiid : p.stripePaymentIntentId = some intentId)
    (hret : retrieve intentId = some intent)
    (hsucc : intent.status = "succeeded")
    (hnp : p.status ≠ PayStatus.paid) :
    syncRoute paymentId uid store retrieve now
      = ({ status := 200, synced := some true },
         updateStatus store paymentId .paid (some intent.chargeIds.head?)
           now) := by
  unfold syncRoute
  rw [hp]
  dsimp only
  rw [if_neg hauth, hiid]
  dsimp only
  rw [hret]
  dsimp only
  rw [if_pos ⟨hsucc, hnp⟩]

/-- On a verified `payment_intent.succeeded` event the webhook route calls
`updateStatus(id, 'paid', {stripeChargeId})` unconditionally. -/
theorem webhookRoute_succeeded (ev : WebhookEvent) (store : Store)
    (now : Nat) (hev : ev.etype = "payment_intent.succeeded") :
    webhookRoute true ev store now
      = ({ status := 200 },
         updateStatus store ev.paymentId .paid (some ev.chargeIds.head?)
           now) := by
  simp [webhookRoute, hev]

/-- On a verified `payment_intent.payment_failed` event the webhook route
calls `updateStatus(id, 'failed')` unconditionally. -/
theorem webhookRoute_failed (ev : WebhookEvent) (store : Store) (now : Nat)
    (hev : ev.etype = "payment_intent.payment_failed") :
    webhookRoute true ev store now
      = ({ status := 200 },
         updateStatus store ev.paymentId .failed none now) := by
  simp [webhookRoute, hev]

/-- The lease-keyed route's two-argument call leaves the service's
`period` parameter `undefined`, which firebase-admin rejects: the
existence check throws on every store. -/
theorem existsForPeriod_undefined (store : Store) (t pr : String) :
    existsForPeriod store t pr none = Except.error () := rfl

/-- `NaN` is absorbing for the JS accumulation over `totalAmount`. -/
theorem foldl_addOpt_nan (l : List PaymentDoc) :
    l.foldl (fun s p => s.addOpt p.totalAmount) JSNum.nan = JSNum.nan := by
  induction l with
  | nil => rfl
  | cons d rest ih =>
    have hstep : JSNum.addOpt JSNum.nan d.totalAmount = JSNum.nan := by
      cases d.totalAmount <;> rfl
    rw [List.foldl_cons]
    rw [hstep]
    exact ih

/-- If some document of the list lacks `totalAmount`, the JS sum is `NaN`
from any accumulator. -/
theorem foldl_addOpt_of_none (l : List PaymentDoc) (s : JSNum)
    (h : ∃ d ∈ l, d.totalAmount = none) :
    l.foldl (fun s p => s.addOpt p.totalAmount) s = JSNum.nan := by
  induction l generalizing s with
  | nil => simp at h
  | cons d rest ih =>
    rw [List.foldl_cons]
    rcases h with ⟨e, he, hnone⟩
    rcases List.mem_cons.mp he with rfl | hmem
    · rw [hnone]
      have hstep : JSNum.addOpt s none = JSNum.nan := by cases s <;> rfl
      rw [hstep]
      exact foldl_addOpt_nan rest
    · exact ih _ ⟨e, hmem, hnone⟩

/-- If every document of the list carries `totalAmount`, the JS sum is
the numeric sum. -/
theorem foldl_addOpt_of_all_some (l : List PaymentDoc) (a : Rat)
    (h : ∀ d ∈ l, d.totalAmount ≠ none) :
    l.foldl (fun s p => s.addOpt p.totalAmount) (JSNum.num a)
      = JSNum.num (a + (l.map (fun d => d.totalAmount.getD 0)).sum) := by
  induction l generalizing a with
  | nil => simp
  | cons d rest ih =>
    have hd := h d (List.mem_cons_self d rest)
    rcases Option.ne_none_iff_exists'.mp hd with ⟨q, hq⟩
    rw [List.foldl_cons]
    rw [hq]
    have hstep : JSNum.addOpt (JSNum.num a) (some q) = JSNum.num (a + q) :=
      rfl
    rw [hstep, ih (a + q) (fun e he => h e (List.mem_cons_of_mem d he))]
    simp [hq, add_assoc]

/-! ### Claim theorems -/

/-- C4: for every webhook request whose payload signature does not verify,
the handler responds 400 and performs no store mutation: the resulting
store is exactly the store before the request, whatever the event payload
and instant. -/
theorem c4_webhook_bad_signature_no_mutation (ev : WebhookEvent)
    (store : Store) (now : Nat) :
    webhookRoute false ev store now = ({ status := 400 }, store) := rfl

/-- C5: the spec scenario. Creating a payment for tenant `T`, property
`P`, period `2025-03` with rent 1000 yields a stored record with status
`pending` and null intent id; initiate-charge creates an intent for
100000 cents, persists the intent id and returns a client secret; the
verified `payment_intent.succeeded` webhook transitions the record to
`paid` with `paidAt` stamped and `stripeChargeId` populated; a subsequent
manual sync changes no stored field and responds `synced:false`. -/
theorem c5_scenario_chain :
    scnStep1.1.status = 200 ∧
    (getById scnStep1.2 "pay1").map PaymentDoc.status
      = some PayStatus.pending ∧
    (getById scnStep1.2 "pay1").map PaymentDoc.stripePaymentIntentId
      = some none ∧
    scnStep2.1.status = 200 ∧
    scnStep2.1.intentAmount = some 100000 ∧
    scnStep2.1.clientSecret = some "cs_1" ∧
    (getById scnStep2.2 "pay1").map PaymentDoc.stripePaymentIntentId
      = some (some "pi_1") ∧
    scnStep3.1.status = 200 ∧
    (getById scnStep3.2 "pay1").map PaymentDoc.status
      = some PayStatus.paid ∧
    (getById scnStep3.2 "pay1").map PaymentDoc.paidAt = some (some 7) ∧
    (getById scnStep3.2 "pay1").map PaymentDoc.stripeChargeId
      = some (some "ch_1") ∧
    scnStep4.1.status = 200 ∧
    scnStep4.1.synced = some false ∧
    scnStep4.2 = scnStep3.2 := by
  norm_num +decide [scnStep1, scnStep2, scnStep3, scnStep4, scnReq,
    createRoute, payRoute, webhookRoute, syncRoute, succeededRetrieve,
    scnCreateIntent, isBlank, periodValid, hasExistingPayments,
    duplicateExists, serviceCreate, createBase, getById, jsRound,
    updateStripeIntentId, updateStatus, statusTransform]

/-- C1 counterexample: a verified `payment_intent.payment_failed` webhook
arriving for a payment that is already `paid` does not leave it `paid`:
the handler updates unconditionally and the stored status becomes
`failed`. -/
theorem c1_failed_webhook_on_paid_counterexample :
    (getById (webhookRoute true
        { etype := "payment_intent.payment_failed", paymentId := "p1" }
        [paidFixture] 9).2 "p1").map PaymentDoc.status
      = some PayStatus.failed ∧
    (getById (webhookRoute true
        { etype := "payment_intent.payment_failed", paymentId := "p1" }
        [paidFixture] 9).2 "p1").map PaymentDoc.status
      ≠ some PayStatus.paid := by
  decide

/-- C2 counterexample: after manual sync has marked the payment `paid` at
instant 3, a second verified `payment_intent.succeeded` delivery at
instant 5 is not a no-op on the stored record — it overwrites `paidAt`. -/
theorem c2_second_delivery_counterexample :
    (webhookRoute true succeededEvent
        (syncRoute "p1" "T" [pendingFixture] succeededRetrieve 3).2 5).2
      ≠ (syncRoute "p1" "T" [pendingFixture] succeededRetrieve 3).2 ∧
    (getById (webhookRoute true succeededEvent
        (syncRoute "p1" "T" [pendingFixture] succeededRetrieve 3).2 5).2
        "p1").map PaymentDoc.paidAt = some (some 5) ∧
    (getById (syncRoute "p1" "T" [pendingFixture] succeededRetrieve 3).2
        "p1").map PaymentDoc.paidAt = some (some 3) := by
  decide

/-- C3 counterexample: a non-cancelled (`failed`) payment already exists
for (tenant `T`, property `P`, period `2025-03`), yet a create request for
the same triple by the same landlord succeeds with HTTP 200 and persists a
second record: the duplicate guard only matches `pending`/`paid`
documents. -/
theorem c3_duplicate_create_counterexample :
    failedFixture.status ≠ PayStatus.cancelled ∧
    (createRoute rentReq "L" [failedFixture] "p2" 0).1.status = 200 ∧
    (createRoute rentReq "L" [failedFixture] "p2" 0).2.length = 2 := by
  norm_num +decide [createRoute, rentReq, failedFixture, isBlank,
    periodValid, hasExistingPayments, duplicateExists, serviceCreate,
    createBase]

/-- C6 counterexample: with a prior `pending` payment for (tenant `T`,
property `P`), a create request with positive deposit is rejected — but
with HTTP 400, not 409 (`ConflictError`). -/
theorem c6_deposit_status_counterexample :
    (createRoute depositReq "L" [priorPendingFixture] "p2" 0).1.status
      = 400 ∧
    (createRoute depositReq "L" [priorPendingFixture] "p2" 0).1.status
      ≠ 409 ∧
    (createRoute depositReq "L" [priorPendingFixture] "p2" 0).2
      = [priorPendingFixture] := by
  decide

/-- C7 counterexample: the payment's landlord `L` (distinct from tenant
`T`) calls initiate-charge on an existing pending payment and is rejected
with 403: the route authorizes only the tenant, so the landlord is not
authorized. -/
theorem c7_landlord_rejected_counterexample :
    pendingNoIntentFixture.landlordId = "L" ∧
    (payRoute "p1" "L" [pendingNoIntentFixture] (fun _ => none)
        (fun _ => none)).1.status = 403 := by
  decide

/-- C1 (amended): for a payment whose stored status is `paid`, manual
sync never changes the store, landlord cancellation never changes the
store and fails with 400 (`InvalidStateError`) for the payment's
landlord, and initiate-charge never changes the store; but the webhook
route updates unconditionally, so a verified
`payment_intent.payment_failed` event for that payment sets its stored
status to `failed` — `paid` is terminal on every path except the
webhook. -/
theorem c1_paid_terminal_except_webhook (store : Store)
    (paymentId uid : String) (p : PaymentDoc)
    (retrieve : String → Option StripeIntent)
    (createIntent : Int → Option NewIntent) (now : Nat)
    (hp : getById store paymentId = some p)
    (hpaid : p.status = PayStatus.paid) :
    (syncRoute paymentId uid store retrieve now).2 = store ∧
    (deleteRoute paymentId uid store now).2 = store ∧
    (uid = p.landlordId →
      (deleteRoute paymentId uid store now).1.status = 400) ∧
    (payRoute paymentId uid store retrieve createIntent).2 = store ∧
    (getById (webhookRoute true
        { etype := "payment_intent.payment_failed", paymentId := paymentId }
        store now).2 paymentId).map PaymentDoc.status
      = some PayStatus.failed := by
  have hpid := getById_id store paymentId p hp
  refine ⟨syncRoute_store_of_paid store paymentId uid p retrieve now hp
    hpaid, ?_, ?_, ?_, ?_⟩
  · unfold deleteRoute
    rw [hp]
    dsimp only
    split <;> first | rfl | contradiction
  · intro huid
    unfold deleteRoute
    rw [hp]
    dsimp only
    rw [if_neg (fun h => h huid.symm), if_pos hpaid]
  · unfold payRoute
    rw [hp]
    dsimp only
    split <;> first | rfl | contradiction
  · rw [webhookRoute_failed _ _ _ rfl]
    dsimp only
    rw [getById_updateStatus, hp]
    simp [statusTransform_status _ _ _ _ _ hpid]

/-- C1 witness: the amended statement instantiated at a concrete `paid`
payment `p1` of tenant `T` and landlord `L`. -/
theorem c1_paid_terminal_except_webhook_witness :
    (syncRoute "p1" "L" [paidFixture] succeededRetrieve 9).2
      = [paidFixture] ∧
    (deleteRoute "p1" "L" [paidFixture] 9).2 = [paidFixture] ∧
    ("L" = paidFixture.landlordId →
      (deleteRoute "p1" "L" [paidFixture] 9).1.status = 400) ∧
    (payRoute "p1" "L" [paidFixture] succeededRetrieve
        (fun _ => none)).2 = [paidFixture] ∧
    (getById (webhookRoute true
        { etype := "payment_intent.payment_failed", paymentId := "p1" }
        [paidFixture] 9).2 "p1").map PaymentDoc.status
      = some PayStatus.failed :=
  c1_paid_terminal_except_webhook [paidFixture] "p1" "L" paidFixture
    succeededRetrieve (fun _ => none) 9 (by decide) (by decide)

/-- C2 (amended): the sync route's realization of the "succeeded"
transition is idempotent — after a first sync has marked the payment
`paid`, a second sync is a no-op on the store and reports `synced:false`
— but the webhook route's realization is not: it re-applies the update on
every delivery, so applying `payment_intent.succeeded` once stamps
`paidAt` with the first delivery instant while a second delivery
overwrites it with the second instant (not a no-op on the stored
record). -/
theorem c2_sync_idempotent_webhook_rewrites (store : Store)
    (paymentId uid : String) (p : PaymentDoc) (intentId : String)
    (intent : StripeIntent) (retrieve : String → Option StripeIntent)
    (t1 t2 : Nat) (ev : WebhookEvent)
    (hp : getById store paymentId = some p)
    (hauth : ¬(p.tenantId ≠ uid ∧ p.landlordId ≠ uid))
    (hiid : p.stripePaymentIntentId = some intentId)
    (hret : retrieve intentId = some intent)
    (hsucc : intent.status = "succeeded")
    (hnp : p.status ≠ PayStatus.paid)
    (hev : ev.etype = "payment_intent.succeeded")
    (hevid : ev.paymentId = paymentId) :
    syncRoute paymentId uid (syncRoute paymentId uid store retrieve t1).2
        retrieve t2
      = ({ status := 200, synced := some false },
         (syncRoute paymentId uid store retrieve t1).2) ∧
    (getById (webhookRoute true ev store t1).2 paymentId).map
        PaymentDoc.paidAt = some (some t1) ∧
    (getById (webhookRoute true ev (webhookRoute true ev store t1).2
        t2).2 paymentId).map PaymentDoc.paidAt = some (some t2) := by
  have hpid := getById_id store paymentId p hp
  have h1 := syncRoute_succeeded store paymentId uid p intentId intent
    retrieve t1 hp hauth hiid hret hsucc hnp
  refine ⟨?_, ?_, ?_⟩
  · rw [h1]
    dsimp only
    have hgb1 : getById (updateStatus store paymentId .paid
        (some intent.chargeIds.head?) t1) paymentId
        = some (statusTransform paymentId .paid
          (some intent.chargeIds.head?) t1 p) := by
      rw [getById_updateStatus, hp]
      rfl
    refine syncRoute_synced_false_of_paid _ _ _ _ intentId intent _ _ hgb1
      ?_ ?_ hret ?_
    · rw [statusTransform_tenantId, statusTransform_landlordId]
      exact hauth
    · rw [statusTransform_intentId]
      exact hiid
    · exact statusTransform_status _ _ _ _ _ hpid
  · rw [webhookRoute_succeeded ev store t1 hev]
    dsimp only
    rw [hevid, getById_updateStatus, hp]
    simp [statusTransform_paidAt _ _ _ _ hpid]
  · rw [webhookRoute_succeeded ev store t1 hev]
    dsimp only
    rw [webhookRoute_succeeded ev _ t2 hev]
    dsimp only
    rw [hevid, getById_updateStatus, getById_updateStatus, hp]
    have hid1 : (statusTransform paymentId .paid
        (some ev.chargeIds.head?) t1 p).id = paymentId := by
      rw [statusTransform_id]
      exact hpid
    simp [statusTransform_paidAt _ _ _ _ hid1]

/-- C2 witness: the amended statement instantiated at the concrete
pending payment `p1` with intent `pi_1`, synced at instant 3 and
webhook-delivered at instants 3 and 5. -/
theorem c2_sync_idempotent_webhook_rewrites_witness :
    syncRoute "p1" "T" (syncRoute "p1" "T" [pendingFixture]
        succeededRetrieve 3).2 succeededRetrieve 5
      = ({ status := 200, synced := some false },
         (syncRoute "p1" "T" [pendingFixture] succeededRetrieve 3).2) ∧
    (getById (webhookRoute true succeededEvent [pendingFixture] 3).2
        "p1").map PaymentDoc.paidAt = some (some 3) ∧
    (getById (webhookRoute true succeededEvent
        (webhookRoute true succeededEvent [pendingFixture] 3).2 5).2
        "p1").map PaymentDoc.paidAt = some (some 5) :=
  c2_sync_idempotent_webhook_rewrites [pendingFixture] "p1" "T"
    pendingFixture "pi_1"
    { id := "pi_1", status := "succeeded", clientSecret := "cs_1",
      chargeIds := ["ch_1"] }
    succeededRetrieve 3 5 succeededEvent (by decide) (by decide)
    (by decide) (by decide) (by decide) (by decide) (by decide)
    (by decide)

/-- C3 (amended): under passing validations, the totalAmount-variant
create fails with 409 and persists nothing exactly when a `pending` or
`paid` payment with the same landlord, tenant, property and period
already exists, and otherwise succeeds, appending exactly the one new
record; `failed` (and `cancelled`) records, and records under a different
landlord, do not block creation, so more than one non-cancelled payment
can exist per (tenant, property, period). -/
theorem c3_duplicate_guard_characterization (req : CreateReq)
    (landlordId newId : String) (store : Store) (now : Nat)
    (hb : (isBlank req.tenantId || isBlank req.propertyId ||
      isBlank req.period) = false)
    (hper : periodValid (req.period.getD "") = true)
    (hdep : ¬(hasExistingPayments store (req.tenantId.getD "")
      (req.propertyId.getD "") = true ∧ 0 < req.depositAmount))
    (htot : 0 < req.rentAmount + req.utilitiesAmount + req.depositAmount) :
    (duplicateExists store landlordId (req.tenantId.getD "")
        (req.propertyId.getD "") (req.period.getD "") = true →
      createRoute req landlordId store newId now
        = ({ status := 409 }, store)) ∧
    (duplicateExists store landlordId (req.tenantId.getD "")
        (req.propertyId.getD "") (req.period.getD "") = false →
      createRoute req landlordId store newId now
        = ({ status := 200, paymentId := some newId },
           store ++ [(serviceCreate store (createBase req landlordId newId
             (hasExistingPayments store (req.tenantId.getD "")
               (req.propertyId.getD ""))) now).1])) := by
  have hamts : ¬(req.rentAmount ≤ 0 ∧ req.utilitiesAmount ≤ 0 ∧
      req.depositAmount ≤ 0) := by
    rintro ⟨h1, h2, h3⟩
    linarith
  have htot' : ¬(req.rentAmount + req.utilitiesAmount +
      req.depositAmount ≤ 0) := not_le.mpr htot
  constructor
  · intro hdup
    simp only [createRoute]
    rw [if_neg (by simp [hb]), if_neg hamts, if_neg (by simp [hper]),
      if_neg hdep, if_neg htot', if_pos hdup]
  · intro hdup
    simp only [createRoute]
    rw [if_neg (by simp [hb]), if_neg hamts, if_neg (by simp [hper]),
      if_neg hdep, if_neg htot', if_neg (by simp [hdup])]
    rfl

/-- C3 witness: the amended characterization instantiated at a store
holding only the `failed` payment for (T, P, 2025-03) and the rent-100
create request for the same triple. -/
theorem c3_duplicate_guard_characterization_witness :
    (duplicateExists [failedFixture] "L" (rentReq.tenantId.getD "")
        (rentReq.propertyId.getD "") (rentReq.period.getD "") = true →
      createRoute rentReq "L" [failedFixture] "p2" 0
        = ({ status := 409 }, [failedFixture])) ∧
    (duplicateExists [failedFixture] "L" (rentReq.tenantId.getD "")
        (rentReq.propertyId.getD "") (rentReq.period.getD "") = false →
      createRoute rentReq "L" [failedFixture] "p2" 0
        = ({ status := 200, paymentId := some "p2" },
           [failedFixture] ++ [(serviceCreate [failedFixture]
             (createBase rentReq "L" "p2"
               (hasExistingPayments [failedFixture]
                 (rentReq.tenantId.getD "")
                 (rentReq.propertyId.getD ""))) 0).1])) :=
  c3_duplicate_guard_characterization rentReq "L" "p2" [failedFixture] 0
    (by decide) (by decide) (by decide) (by norm_num [rentReq])

/-- C6 (amended): a create request with positive deposit is rejected with
HTTP 400 — not 409 — and no record is persisted, whenever a prior `paid`
or `pending` payment exists for the (tenant, property) pair; stores whose
payments are all `failed` or `cancelled` never satisfy the existing-
payments check, so such priors do not trigger the rule. -/
theorem c6_deposit_rule_http400 (req : CreateReq)
    (landlordId newId : String) (store : Store) (now : Nat)
    (hb : (isBlank req.tenantId || isBlank req.propertyId ||
      isBlank req.period) = false)
    (hper : periodValid (req.period.getD "") = true)
    (hdep : 0 < req.depositAmount)
    (hex : hasExistingPayments store (req.tenantId.getD "")
      (req.propertyId.getD "") = true) :
    createRoute req landlordId store newId now
      = ({ status := 400 }, store) ∧
    ∀ store2 : Store,
      (∀ d ∈ store2, d.status = PayStatus.failed ∨
        d.status = PayStatus.cancelled) →
      hasExistingPayments store2 (req.tenantId.getD "")
        (req.propertyId.getD "") = false := by
  constructor
  · have hamts : ¬(req.rentAmount ≤ 0 ∧ req.utilitiesAmount ≤ 0 ∧
        req.depositAmount ≤ 0) := by
      rintro ⟨-, -, h3⟩
      linarith
    simp only [createRoute]
    rw [if_neg (by simp [hb]), if_neg hamts, if_neg (by simp [hper]),
      if_pos ⟨hex, hdep⟩]
  · intro store2 h
    simp only [hasExistingPayments]
    rw [List.any_eq_false]
    intro d hd
    rcases h d hd with h' | h' <;> simp [h']

/-- C6 witness: the amended statement instantiated at the deposit-5
request with a prior pending payment for (T, P). -/
theorem c6_deposit_rule_http400_witness :
    createRoute depositReq "L" [priorPendingFixture] "p2" 0
      = ({ status := 400 }, [priorPendingFixture]) ∧
    ∀ store2 : Store,
      (∀ d ∈ store2, d.status = PayStatus.failed ∨
        d.status = PayStatus.cancelled) →
      hasExistingPayments store2 (depositReq.tenantId.getD "")
        (depositReq.propertyId.getD "") = false :=
  c6_deposit_rule_http400 depositReq "L" "p2" [priorPendingFixture] 0
    (by decide) (by decide) (by decide) (by decide)

/-- C7 (amended): for an existing payment, initiate-charge fails with 403
exactly when the requester is not the payment's tenant — in particular
the payment's landlord is not authorized unless they are also the tenant
— and, for the tenant, it fails with 400 (`InvalidStateError`) and no
store change when the payment's status is `paid` or `cancelled`. -/
theorem c7_pay_auth_and_state (paymentId requester : String)
    (store : Store) (p : PaymentDoc)
    (retrieve : String → Option StripeIntent)
    (createIntent : Int → Option NewIntent)
    (hp : getById store paymentId = some p) :
    ((payRoute paymentId requester store retrieve createIntent).1.status
        = 403 ↔ requester ≠ p.tenantId) ∧
    (requester = p.tenantId →
      p.status = PayStatus.paid ∨ p.status = PayStatus.cancelled →
      payRoute paymentId requester store retrieve createIntent
        = ({ status := 400 }, store)) := by
  constructor
  · constructor
    · intro h403 heq
      unfold payRoute at h403
      rw [hp] at h403
      dsimp only at h403
      rw [if_neg (fun h => h heq.symm)] at h403
      repeat' split at h403
      all_goals simp_all
    · intro hne
      unfold payRoute
      rw [hp]
      dsimp only
      rw [if_pos hne.symm]
  · intro heq hst
    unfold payRoute
    rw [hp]
    dsimp only
    rw [if_neg (fun h => h heq.symm)]
    rcases hst with hst | hst
    · rw [if_pos hst]
    · rw [if_neg (by simp [hst]), if_pos hst]

/-- C7 witness: the amended statement instantiated at the concrete
`paid` payment `p1` with its tenant `T` as requester. -/
theorem c7_pay_auth_and_state_witness :
    ((payRoute "p1" "T" [paidFixture] succeededRetrieve
        (fun _ => none)).1.status = 403 ↔ "T" ≠ paidFixture.tenantId) ∧
    ("T" = paidFixture.tenantId →
      paidFixture.status = PayStatus.paid ∨
        paidFixture.status = PayStatus.cancelled →
      payRoute "p1" "T" [paidFixture] succeededRetrieve (fun _ => none)
        = ({ status := 400 }, [paidFixture])) :=
  c7_pay_auth_and_state "p1" "T" [paidFixture] paidFixture
    succeededRetrieve (fun _ => none) (by decide)

/-- Running the lease-keyed create route: every path returns before
`PaymentService.create` — the early validations with their own statuses,
and the duplicate guard with HTTP 500, because its two-argument
`existsForPeriod(leaseId, period)` call leaves the `period` query value
`undefined` and the SDK throws — so the route's result is a status-only
response with the store untouched, independent of the gateway oracle. -/
theorem createLeaseRoute_run (leaseId period : Option String)
    (payType tenantId : String) (leases : List Lease) (store : Store)
    (ci : Int → Option NewIntent) (newId : String) (now : Nat) :
    createLeaseRoute leaseId period payType tenantId leases store ci
        newId now
      = ({ status :=
            if isBlank leaseId || isBlank period then 400
            else if ¬ periodValid (period.getD "") then 400
            else
              match leases.find? (fun l => l.id == leaseId.getD "") with
              | none => 404
              | some lease =>
                if lease.tenantId ≠ tenantId then 403
                else if lease.status ≠ "active" then 400
                else 500 },
         store) := by
  unfold createLeaseRoute existsForPeriod
  dsimp only
  split
  · rfl
  · split
    · rfl
    · split
      · rfl
      · split
        · rfl
        · split <;> rfl

/-- C8: in the lease-keyed create route no external call or store write
ever precedes validation — in fact the route performs no store write and
consults no gateway at all: the broken duplicate guard throws (HTTP 500)
before `PaymentService.create` on every path that passes the earlier
checks, so the store after any request is exactly the store before it
and the response is independent of the gateway oracle. In particular no
`pending` record is persisted for a request whose charge amount is not
positive, and a persisted-record-with-failed-intent state cannot arise
from this route. -/
theorem c8_no_write_before_validation (leaseId period : Option String)
    (payType tenantId : String) (leases : List Lease) (store : Store)
    (ci ci2 : Int → Option NewIntent) (newId : String) (now : Nat) :
    (createLeaseRoute leaseId period payType tenantId leases store ci
      newId now).2 = store ∧
    createLeaseRoute leaseId period payType tenantId leases store ci
        newId now
      = createLeaseRoute leaseId period payType tenantId leases store
          ci2 newId now := by
  rw [createLeaseRoute_run, createLeaseRoute_run]
  exact ⟨rfl, rfl⟩

/-- C9 counterexample: an empty store satisfies the claim's hypothesis
(no document has `tenantId` equal to the lease id and `propertyId` equal
to the period string), the lease is valid and active and the gateway
works, yet the lease-keyed create does not succeed: the guard's
`undefined` period query value makes the SDK throw, the route answers
500 and persists nothing — and a second create for the same lease and
period fails the same way instead of succeeding. -/
theorem c9_create_never_succeeds_counterexample :
    createLeaseRoute (some "lease1") (some "2025-03") "rent" "T"
        [activeLease] []
        (fun _ => some { id := "pi_9", clientSecret := "cs_9" }) "pay1" 0
      = ({ status := 500 }, []) ∧
    createLeaseRoute (some "lease1") (some "2025-03") "rent" "T"
        [activeLease]
        (createLeaseRoute (some "lease1") (some "2025-03") "rent" "T"
          [activeLease] []
          (fun _ => some { id := "pi_9", clientSecret := "cs_9" }) "pay1"
          0).2
        (fun _ => some { id := "pi_9", clientSecret := "cs_9" }) "pay2" 1
      = ({ status := 500 }, []) ∧
    (createLeaseRoute (some "lease1") (some "2025-03") "rent" "T"
        [activeLease]
        (createLeaseRoute (some "lease1") (some "2025-03") "rent" "T"
          [activeLease] []
          (fun _ => some { id := "pi_9", clientSecret := "cs_9" }) "pay1"
          0).2
        (fun _ => some { id := "pi_9", clientSecret := "cs_9" }) "pay2"
        1).1.status ≠ 200 := by
  decide

/-- C9 (amended): the lease-keyed duplicate guard calls
`existsForPeriod(leaseId, period)` against the three-parameter service
signature `(tenantId, propertyId, period)`, binding the lease id to the
`tenantId` filter, the period string to the `propertyId` filter, and
leaving the `period` filter `undefined`; firebase-admin rejects the
undefined query value, so on every store the guard throws: the
duplicate-payment 409 response of the route is unreachable, every
request that reaches the guard fails with HTTP 500 and persists nothing,
and a second create for the same lease and period fails identically
instead of succeeding. -/
theorem c9_lease_duplicate_guard_broken (lid per payType tenantId : String)
    (lease : Lease) (leases : List Lease) (store store2 : Store)
    (ci : Int → Option NewIntent) (newId newId2 : String) (now now2 : Nat)
    (hfind : leases.find? (fun l => l.id == lid) = some lease)
    (hauth : lease.tenantId = tenantId) (hact : lease.status = "active")
    (hlid : lid ≠ "") (hbper : per ≠ "") (hper : periodValid per = true) :
    existsForPeriod store2 lid per none = Except.error () ∧
    (createLeaseRoute (some lid) (some per) payType tenantId leases
      store2 ci newId now).1.status ≠ 409 ∧
    createLeaseRoute (some lid) (some per) payType tenantId leases store
        ci newId now = ({ status := 500 }, store) ∧
    createLeaseRoute (some lid) (some per) payType tenantId leases
        (createLeaseRoute (some lid) (some per) payType tenantId leases
          store ci newId now).2 ci newId2 now2
      = ({ status := 500 }, store) := by
  have h500 : ∀ (s : Store) (nid : String) (n : Nat),
      createLeaseRoute (some lid) (some per) payType tenantId leases s ci
        nid n = ({ status := 500 }, s) := by
    intro s nid n
    rw [createLeaseRoute_run]
    simp [isBlank, hlid, hbper, hper, hfind, hauth, hact]
  refine ⟨rfl, ?_, h500 store newId now, ?_⟩
  · rw [createLeaseRoute_run]
    dsimp only
    repeat' split
    all_goals decide
  · rw [h500 store newId now]
    exact h500 store newId2 now2

/-- C9 witness: the amended statement instantiated at the valid active
lease `lease1`, period `2025-03`, an empty store and a working
gateway. -/
theorem c9_lease_duplicate_guard_broken_witness :
    existsForPeriod [] "lease1" "2025-03" none = Except.error () ∧
    (createLeaseRoute (some "lease1") (some "2025-03") "rent" "T"
      [activeLease] []
      (fun _ => some { id := "pi_9", clientSecret := "cs_9" }) "pay1"
      0).1.status ≠ 409 ∧
    createLeaseRoute (some "lease1") (some "2025-03") "rent" "T"
        [activeLease] []
        (fun _ => some { id := "pi_9", clientSecret := "cs_9" }) "pay1" 0
      = ({ status := 500 }, []) ∧
    createLeaseRoute (some "lease1") (some "2025-03") "rent" "T"
        [activeLease]
        (createLeaseRoute (some "lease1") (some "2025-03") "rent" "T"
          [activeLease] []
          (fun _ => some { id := "pi_9", clientSecret := "cs_9" }) "pay1"
          0).2
        (fun _ => some { id := "pi_9", clientSecret := "cs_9" }) "pay2" 1
      = ({ status := 500 }, []) :=
  c9_lease_duplicate_guard_broken "lease1" "2025-03" "rent" "T"
    activeLease [activeLease] [] []
    (fun _ => some { id := "pi_9", clientSecret := "cs_9" }) "pay1"
    "pay2" 0 1 (by decide) (by decide) (by decide) (by decide)
    (by decide) (by decide)

/-- C10: `getLandlordStats` computes `totalRevenue` by folding
`sum + p.totalAmount` over the landlord's `paid` payments (and
`pendingAmount` over the `pending` ones): when every such payment carries
a `totalAmount` the result is the numeric sum, and whenever any of them
lacks the field the corresponding sum is `NaN` rather than a number —
and every record the lease-keyed create route persists lacks
`totalAmount` (it stores `amount` instead). -/
theorem c10_landlord_stats_nan (store : Store) (lid : String) :
    ((∀ d ∈ (store.filter (fun d => d.landlordId == lid)).filter
        (fun p => p.status == PayStatus.paid), d.totalAmount ≠ none) →
      (getLandlordStats store lid).totalRevenue
        = JSNum.num ((((store.filter (fun d => d.landlordId == lid)).filter
            (fun p => p.status == PayStatus.paid)).map
            (fun d => d.totalAmount.getD 0)).sum)) ∧
    ((∃ d ∈ (store.filter (fun d => d.landlordId == lid)).filter
        (fun p => p.status == PayStatus.paid), d.totalAmount = none) →
      (getLandlordStats store lid).totalRevenue = JSNum.nan) ∧
    ((∀ d ∈ (store.filter (fun d => d.landlordId == lid)).filter
        (fun p => p.status == PayStatus.pending), d.totalAmount ≠ none) →
      (getLandlordStats store lid).pendingAmount
        = JSNum.num ((((store.filter (fun d => d.landlordId == lid)).filter
            (fun p => p.status == PayStatus.pending)).map
            (fun d => d.totalAmount.getD 0)).sum)) ∧
    ((∃ d ∈ (store.filter (fun d => d.landlordId == lid)).filter
        (fun p => p.status == PayStatus.pending), d.totalAmount = none) →
      (getLandlordStats store lid).pendingAmount = JSNum.nan) ∧
    ∀ (l t : String) (lease : Lease) (amt : Rat) (ty per nid : String)
      (s : Store) (n : Nat),
      (serviceCreate s (leaseCreateBase l t lease amt ty per nid)
        n).1.totalAmount = none := by
  refine ⟨?_, ?_, ?_, ?_, ?_⟩
  · intro h
    simp only [getLandlordStats]
    rw [foldl_addOpt_of_all_some _ 0 h, zero_add]
  · intro h
    simp only [getLandlordStats]
    exact foldl_addOpt_of_none _ _ h
  · intro h
    simp only [getLandlordStats]
    rw [foldl_addOpt_of_all_some _ 0 h, zero_add]
  · intro h
    simp only [getLandlordStats]
    exact foldl_addOpt_of_none _ _ h
  · intro l t lease amt ty per nid s n
    rfl

/-- C10 witness: with only the totalAmount-carrying `paid` payment the
revenue is the numeric sum; with only the lease-route-shaped `paid`
payment (no `totalAmount`) the revenue is `NaN`. -/
theorem c10_landlord_stats_nan_witness :
    ((∀ d ∈ ([paidFixture].filter (fun d => d.landlordId == "L")).filter
        (fun p => p.status == PayStatus.paid), d.totalAmount ≠ none) ∧
      (getLandlordStats [paidFixture] "L").totalRevenue
        = JSNum.num (((([paidFixture].filter
            (fun d => d.landlordId == "L")).filter
            (fun p => p.status == PayStatus.paid)).map
            (fun d => d.totalAmount.getD 0)).sum)) ∧
    ((∃ d ∈ ([leaseStyleDoc].filter (fun d => d.landlordId == "L")).filter
        (fun p => p.status == PayStatus.paid), d.totalAmount = none) ∧
      (getLandlordStats [leaseStyleDoc] "L").totalRevenue = JSNum.nan) :=
  ⟨⟨by decide, (c10_landlord_stats_nan [paidFixture] "L").1 (by decide)⟩,
   ⟨by decide, (c10_landlord_stats_nan [leaseStyleDoc] "L").2.1
      (by decide)⟩⟩

end SmartRent
